import Mathlib

/-!
Verification of the AcquisitionSystem core against its specification.

Shallow embedding of:
- `src/core/models.py` (`FrameData`)
- `src/core/ring_buffer.py` (`FrameRingBuffer`)
- `src/core/recording_service.py` (`RecordingService`)
- `src/core/playback_controller.py` (`PlaybackController`)
- `src/core/processing_pipeline.py` (`ProcessingPipeline`)

Pixel payloads are abstracted to `Nat` identifiers; timestamps to `Nat`.
Stateful Python methods become state-passing Lean functions; fallible
operations (division by zero, a blocking lock acquisition) return `Option`.
External effects (directory creation, image writes, source open/start,
callback invocations) are recorded as explicit event lists, with the
success of an external write supplied as a `Bool` oracle argument.
-/

namespace AcquisitionSystem

/-- `FrameData` from `src/core/models.py`: a frame payload with metadata.
The numpy array payload is abstracted to a `Nat` identifier and the
`datetime` timestamp to a `Nat`. -/
structure FrameData where
  frame : Nat
  timestamp : Nat
  frame_number : Nat
  source_info : Option String
deriving DecidableEq

/-- `FrameRingBuffer` from `src/core/ring_buffer.py`: `capacity` mirrors
`self.capacity`; `buffer` mirrors the `deque(maxlen=capacity)`, oldest
element first. -/
structure FrameRingBuffer where
  capacity : Nat
  buffer : List FrameData
deriving DecidableEq

namespace FrameRingBuffer

/-- `FrameRingBuffer.__init__(capacity)`: empty deque with the given maxlen. -/
def init (capacity : Nat) : FrameRingBuffer :=
  ⟨capacity, []⟩

/-- `FrameRingBuffer.add`: `deque.append` with `maxlen = capacity`.
Appending to a full deque discards the oldest element; appending to a
`maxlen=0` deque leaves it empty.  Both behaviours are captured by
dropping `length + 1 - capacity` elements (truncated subtraction) from
the front of the appended list. -/
def add (b : FrameRingBuffer) (frame_data : FrameData) : FrameRingBuffer :=
  ⟨b.capacity, (b.buffer ++ [frame_data]).drop (b.buffer.length + 1 - b.capacity)⟩

/-- `FrameRingBuffer.get(index)`: the element at `index` (0 = oldest) when
`0 <= index < len`, else `None`.  Python indices are `int`, hence `Int`. -/
def get (b : FrameRingBuffer) (index : Int) : Option FrameData :=
  if 0 ≤ index ∧ index < b.buffer.length then b.buffer.get? index.toNat else none

/-- `FrameRingBuffer.get_latest`: the newest element, or `None` if empty. -/
def get_latest (b : FrameRingBuffer) : Option FrameData :=
  b.buffer.getLast?

/-- `FrameRingBuffer.get_by_frame_number`: scans newest to oldest for a
matching `frame_number`, `None` when absent. -/
def get_by_frame_number (b : FrameRingBuffer) (frame_number : Nat) : Option FrameData :=
  b.buffer.reverse.find? (fun fd => fd.frame_number == frame_number)

/-- `FrameRingBuffer.get_size`: `len(self._buffer)`. -/
def get_size (b : FrameRingBuffer) : Nat :=
  b.buffer.length

/-- `FrameRingBuffer.get_capacity`: `self.capacity`. -/
def get_capacity (b : FrameRingBuffer) : Nat :=
  b.capacity

/-- `FrameRingBuffer.get_fill_percentage`:
`(self.get_size() / self.capacity) * 100.0`.  The division is unguarded
in the source, so it raises `ZeroDivisionError` when `capacity = 0`;
the fallible division is modelled as `Option ℚ` with `none` for the
raised error. -/
def get_fill_percentage (b : FrameRingBuffer) : Option ℚ :=
  if b.capacity = 0 then none
  else some ((b.get_size : ℚ) / (b.capacity : ℚ) * 100)

/-- `FrameRingBuffer.clear`. -/
def clear (b : FrameRingBuffer) : FrameRingBuffer :=
  ⟨b.capacity, []⟩

/-- `FrameRingBuffer.get_all_frame_numbers`. -/
def get_all_frame_numbers (b : FrameRingBuffer) : List Nat :=
  b.buffer.map (fun fd => fd.frame_number)

/-- `FrameRingBuffer.get_frame_range`: `(None, None)` when empty, else the
frame numbers of the oldest and newest elements. -/
def get_frame_range (b : FrameRingBuffer) : Option Nat × Option Nat :=
  if b.buffer.isEmpty then (none, none)
  else (b.buffer.head?.map (fun fd => fd.frame_number),
        b.buffer.getLast?.map (fun fd => fd.frame_number))

/-- Repeated `add`: inserting a whole sequence of frames in order. -/
def addAll (b : FrameRingBuffer) (fs : List FrameData) : FrameRingBuffer :=
  fs.foldl add b

end FrameRingBuffer

/-- Zero-padded 6-digit index, mirroring the Python format `:06d` used in
`RecordingService.record_frame` for filenames. -/
def pad6 (n : Nat) : String :=
  let s := toString n
  String.mk (List.replicate (6 - s.length) '0') ++ s

/-- `RecordingService` from `src/core/recording_service.py`.  `Path`
values are modelled as strings joined with `/`. -/
structure RecordingService where
  output_folder : String
  current_recording_folder : Option String
  frame_counter : Nat
  is_recording : Bool
deriving DecidableEq

namespace RecordingService

/-- `RecordingService.__init__(output_folder="recordings")`. -/
def init (output_folder : String) : RecordingService :=
  ⟨output_folder, none, 0, false⟩

/-- `RecordingService.start_recording(name=None)`.  `now` stands for the
wall-clock timestamp string `datetime.now().strftime(...)` used when no
name is given.  Returns the updated state, the returned path string
(`str(None) = "None"` when the folder field is `None`), and the list of
directories created by `mkdir`. -/
def start_recording (s : RecordingService) (name : Option String) (now : String) :
    RecordingService × String × List String :=
  if s.is_recording then
    (s, (s.current_recording_folder.getD "None"), [])
  else
    let name := name.getD ("recording_" ++ now)
    let folder := s.output_folder ++ "/" ++ name
    (⟨s.output_folder, some folder, 0, true⟩, folder, [folder])

/-- `RecordingService.record_frame(frame)`.  `writeOk` is the result of
`cv2.imwrite` (an external effect).  Returns the updated state, the
boolean result, and the list of `(index, filepath)` pairs successfully
written to disk. -/
def record_frame (s : RecordingService) (writeOk : Bool) :
    RecordingService × Bool × List (Nat × String) :=
  if s.is_recording = false ∨ s.current_recording_folder = none then
    (s, false, [])
  else
    let folder := s.current_recording_folder.getD "None"
    let filepath := folder ++ "/" ++ "frame_" ++ pad6 s.frame_counter ++ ".png"
    if writeOk then
      (⟨s.output_folder, s.current_recording_folder, s.frame_counter + 1, s.is_recording⟩,
       true, [(s.frame_counter, filepath)])
    else
      (s, false, [])

/-- `RecordingService.stop_recording()`: returns `(folder, frames)` and
resets to idle, or `("", 0)` when already idle. -/
def stop_recording (s : RecordingService) : RecordingService × String × Nat :=
  if s.is_recording = false then
    (s, "", 0)
  else
    (⟨s.output_folder, none, 0, false⟩,
     s.current_recording_folder.getD "None", s.frame_counter)

/-- `RecordingService.is_recording_active()`. -/
def is_recording_active (s : RecordingService) : Bool :=
  s.is_recording

/-- A sequence of `record_frame` calls with the given `cv2.imwrite`
outcomes, accumulating the successfully written `(index, filepath)`
pairs. -/
def runRecord : RecordingService → List Bool → RecordingService × List (Nat × String)
  | s, [] => (s, [])
  | s, b :: bs =>
    let r := record_frame s b
    let rest := runRecord r.1 bs
    (rest.1, r.2.2 ++ rest.2)

end RecordingService

/-- `PlaybackState` from `src/core/playback_controller.py`. -/
inductive PlaybackState where
  | stopped
  | playing
  | paused
deriving DecidableEq

/-- `PlaybackController` from `src/core/playback_controller.py`.
`current_frame` and `total_frames` are Python ints, hence `Int`.
The drive thread and the `fps` timing are outside the claims; the
frame callback is modelled by returning the list of frame numbers it is
synchronously invoked with. -/
structure PlaybackController where
  state : PlaybackState
  current_frame : Int
  total_frames : Option Int
  loop_enabled : Bool
deriving DecidableEq

namespace PlaybackController

/-- `PlaybackController.__init__`. -/
def init : PlaybackController :=
  ⟨PlaybackState.stopped, 0, none, false⟩

/-- `PlaybackController.play()`: body of the method, which runs under
`self._lock`.  `locked` says whether the caller already holds the
non-reentrant `threading.Lock`; acquiring a lock the same thread
already holds blocks forever, modelled as `none`. -/
def play (c : PlaybackController) (locked : Bool) : Option PlaybackController :=
  if locked then none
  else some (if c.state = PlaybackState.playing then c
             else ⟨PlaybackState.playing, c.current_frame, c.total_frames, c.loop_enabled⟩)

/-- `PlaybackController.pause()`: runs under `self._lock`; `PLAYING`
becomes `PAUSED`, otherwise no change.  `locked` as in `play`. -/
def pause (c : PlaybackController) (locked : Bool) : Option PlaybackController :=
  if locked then none
  else some (if c.state = PlaybackState.playing then ⟨PlaybackState.paused, c.current_frame, c.total_frames, c.loop_enabled⟩
             else c)

/-- `PlaybackController.toggle_play_pause()`: acquires `self._lock`, then
dispatches to `self.pause()` / `self.play()`, each of which tries to
acquire the same non-reentrant `threading.Lock` again — so the inner
call is made with the lock already held. -/
def toggle_play_pause (c : PlaybackController) : Option PlaybackController :=
  if c.state = PlaybackState.playing then pause c true
  else play c true

/-- The guard of `step_forward`:
`self._total_frames is None or self._current_frame < self._total_frames - 1`. -/
def canStepForward (c : PlaybackController) : Bool :=
  match c.total_frames with
  | none => true
  | some total => decide (c.current_frame < total - 1)

/-- `PlaybackController.step_forward()`: under the lock, when total frames
is unknown or `current < total - 1`, increments the current frame and
synchronously invokes the frame callback with the new value; otherwise
does nothing.  Returns the new state and the callback invocations. -/
def step_forward (c : PlaybackController) : PlaybackController × List Int :=
  if canStepForward c then
    (⟨c.state, c.current_frame + 1, c.total_frames, c.loop_enabled⟩, [c.current_frame + 1])
  else
    (c, [])

/-- `PlaybackController.step_backward()`: under the lock, when
`current > 0`, decrements the current frame and synchronously invokes
the frame callback with the new value; otherwise does nothing. -/
def step_backward (c : PlaybackController) : PlaybackController × List Int :=
  if 0 < c.current_frame then
    (⟨c.state, c.current_frame - 1, c.total_frames, c.loop_enabled⟩, [c.current_frame - 1])
  else
    (c, [])

/-- `PlaybackController.seek(frame_number)`: clamps into the valid range,
sets the current frame and invokes the callback. -/
def seek (c : PlaybackController) (frame_number : Int) : PlaybackController × List Int :=
  let n := match c.total_frames with
    | some total => max 0 (min frame_number (total - 1))
    | none => max 0 frame_number
  (⟨c.state, n, c.total_frames, c.loop_enabled⟩, [n])

end PlaybackController

/-- Events of `ProcessingPipeline.start()`: calls into the data source
and the launching of the two worker threads. -/
inductive StartEvent where
  | openSource
  | startSource
  | closeSource
  | launchLoops
deriving DecidableEq

/-- State of a `ProcessingPipeline` from
`src/core/processing_pipeline.py`.  The `Queue(maxsize=10)` hand-off
queue is a FIFO list, the two `FrameRingBuffer`s and the owned
`RecordingService` are embedded, and `acquired_numbers` is a history
variable recording, in order, the `frame_number` stamped on each frame
the acquisition loop has acquired. -/
structure PipelineState where
  is_running : Bool
  frames_acquired : Nat
  frames_processed : Nat
  source_buffer : FrameRingBuffer
  processed_buffer : FrameRingBuffer
  processing_queue : List FrameData
  recording : RecordingService
  acquired_numbers : List Nat
deriving DecidableEq

namespace PipelineState

/-- `ProcessingPipeline.__init__(..., buffer_size)`. -/
def init (buffer_size : Nat) : PipelineState :=
  ⟨false, 0, 0, FrameRingBuffer.init buffer_size, FrameRingBuffer.init buffer_size,
   [], RecordingService.init "recordings", []⟩

/-- `ProcessingPipeline.start()`.  `openOk` and `startOk` are the results
of `data_source.open()` and `data_source.start()`.  Returns the new
state, the boolean result, and the source/thread events in order. -/
def start (s : PipelineState) (openOk startOk : Bool) :
    PipelineState × Bool × List StartEvent :=
  if s.is_running then (s, true, [])
  else if openOk = false then (s, false, [StartEvent.openSource])
  else if startOk = false then
    (s, false, [StartEvent.openSource, StartEvent.startSource, StartEvent.closeSource])
  else
    (⟨true, s.frames_acquired, s.frames_processed, s.source_buffer, s.processed_buffer,
      s.processing_queue, s.recording, s.acquired_numbers⟩,
     true,
     [StartEvent.openSource, StartEvent.startSource, StartEvent.launchLoops])

/-- `ProcessingPipeline.stop()`: clears the running flag, joins the
threads, closes the source and stops any active recording. -/
def stop (s : PipelineState) : PipelineState :=
  if s.is_running = false then s
  else
    let rec' := if s.recording.is_recording_active then (s.recording.stop_recording).1
                else s.recording
    ⟨false, s.frames_acquired, s.frames_processed, s.source_buffer, s.processed_buffer,
     s.processing_queue, rec', s.acquired_numbers⟩

/-- One iteration of `ProcessingPipeline._acquisition_loop` in which
`data_source.read_frame()` returned a frame (`payload` abstracts the
pixel array, `ts` the `datetime.now()` stamp, `srcName` the source
info name): builds `FrameData` stamped with `frames_acquired`, appends
it to the source buffer, does a non-blocking put onto the hand-off
queue (dropped when the queue holds 10 items), then increments
`frames_acquired`. -/
def acquire (s : PipelineState) (payload ts : Nat) (srcName : String) : PipelineState :=
  let fd : FrameData := ⟨payload, ts, s.frames_acquired, some srcName⟩
  let q := if s.processing_queue.length < 10 then s.processing_queue ++ [fd]
           else s.processing_queue
  ⟨s.is_running, s.frames_acquired + 1, s.frames_processed,
   s.source_buffer.add fd, s.processed_buffer, q, s.recording,
   s.acquired_numbers ++ [fd.frame_number]⟩

/-- One iteration of `ProcessingPipeline._processing_loop`.  `alg`
abstracts `algorithm.process` (`none` models a raised exception, caught
by the loop's `except` clause, which drops the item), `algName` the
algorithm name, `ts` the timestamp, `writeOk` the `cv2.imwrite` result
should the recording sink be active.  An empty queue models the
`queue.Empty` timeout: the loop just continues. -/
def process (alg : Nat → Option Nat) (algName : String) (s : PipelineState)
    (ts : Nat) (writeOk : Bool) : PipelineState :=
  match s.processing_queue with
  | [] => s
  | fd :: rest =>
    match alg fd.frame with
    | none =>
        ⟨s.is_running, s.frames_acquired, s.frames_processed, s.source_buffer,
         s.processed_buffer, rest, s.recording, s.acquired_numbers⟩
    | some p =>
        let pd : FrameData := ⟨p, ts, fd.frame_number, some algName⟩
        let rec' := if s.recording.is_recording_active then
                      (s.recording.record_frame writeOk).1
                    else s.recording
        ⟨s.is_running, s.frames_acquired, s.frames_processed + 1, s.source_buffer,
         s.processed_buffer.add pd, rest, rec', s.acquired_numbers⟩

end PipelineState

/-- Interleaving semantics of one `ProcessingPipeline`: a step is a
`start()` or `stop()` call, one acquisition-loop iteration (only while
running), or one processing-loop iteration (only while running). -/
inductive PipelineStep (alg : Nat → Option Nat) (algName : String) :
    PipelineState → PipelineState → Prop where
  | startCall (s : PipelineState) (openOk startOk : Bool) :
      PipelineStep alg algName s (s.start openOk startOk).1
  | stopCall (s : PipelineState) :
      PipelineStep alg algName s s.stop
  | acquire (s : PipelineState) (payload ts : Nat) (srcName : String)
      (h : s.is_running = true) :
      PipelineStep alg algName s (s.acquire payload ts srcName)
  | process (s : PipelineState) (ts : Nat) (writeOk : Bool)
      (h : s.is_running = true) :
      PipelineStep alg algName s (PipelineState.process alg algName s ts writeOk)

/-- States reachable from a freshly constructed pipeline. -/
def PipelineReachable (alg : Nat → Option Nat) (algName : String)
    (buffer_size : Nat) (s : PipelineState) : Prop :=
  Relation.ReflTransGen (PipelineStep alg algName) (PipelineState.init buffer_size) s

/-- The frames of the capacity-3 scenario: five frames numbered 0..4. -/
def demoFrames : List FrameData :=
  (List.range 5).map (fun i => ⟨i, i, i, none⟩)

/-- The inductive invariant of the pipeline transition system: the
history of assigned frame numbers is exactly `0, 1, ..., acquired - 1`,
every frame processed or still queued was once acquired, and the
processed count plus the backlog never exceeds the acquired count. -/
def PipelineInv (s : PipelineState) : Prop :=
  s.acquired_numbers = List.range s.frames_acquired ∧
  s.frames_processed + s.processing_queue.length ≤ s.frames_acquired ∧
  (∀ fd ∈ s.processing_queue, fd.frame_number < s.frames_acquired) ∧
  (∀ fd ∈ s.processed_buffer.buffer, fd.frame_number < s.frames_acquired)

/-! ### Ring buffer lemmas -/

namespace FrameRingBuffer

lemma add_capacity (b : FrameRingBuffer) (fd : FrameData) :
    (b.add fd).capacity = b.capacity := rfl

lemma addAll_capacity (fs : List FrameData) (b : FrameRingBuffer) :
    (b.addAll fs).capacity = b.capacity := by
  induction fs generalizing b with
  | nil => rfl
  | cons x fs ih => simpa [addAll, List.foldl_cons] using ih (b.add x)

lemma drop_front_drop (C d : Nat) (m fs : List FrameData) (hd : d = m.length - C) :
    ((m.drop d) ++ fs).drop ((m.drop d ++ fs).length - C) =
      (m ++ fs).drop ((m ++ fs).length - C) := by
  have h1 : d ≤ m.length := by omega
  have h2 : (m ++ fs).drop d = m.drop d ++ fs := by
    rw [List.drop_append_eq_append_drop]
    have : d - m.length = 0 := by omega
    simp [this]
  rw [← h2, List.drop_drop]
  congr 1
  simp only [List.length_append, List.length_drop]
  omega

lemma addAll_buffer_eq (C : Nat) (fs : List FrameData) :
    ∀ (l : List FrameData), l.length ≤ C →
      (FrameRingBuffer.addAll ⟨C, l⟩ fs).buffer = (l ++ fs).drop ((l ++ fs).length - C) := by
  induction fs with
  | nil =>
      intro l h
      simp [addAll, Nat.sub_eq_zero_of_le h]
  | cons x fs ih =>
      intro l h
      have hstep : FrameRingBuffer.addAll ⟨C, l⟩ (x :: fs) =
          FrameRingBuffer.addAll ⟨C, (l ++ [x]).drop (l.length + 1 - C)⟩ fs := rfl
      have hlen : ((l ++ [x]).drop (l.length + 1 - C)).length ≤ C := by
        simp only [List.length_drop, List.length_append, List.length_singleton]
        omega
      rw [hstep, ih _ hlen]
      have := drop_front_drop C (l.length + 1 - C) (l ++ [x]) fs
        (by simp only [List.length_append, List.length_singleton])
      rw [this]
      simp [List.append_assoc]

lemma addAll_init_buffer (C : Nat) (fs : List FrameData) :
    ((FrameRingBuffer.init C).addAll fs).buffer = fs.drop (fs.length - C) := by
  have := addAll_buffer_eq C fs [] (by simp)
  simpa [init] using this

lemma addAll_init_zero (fs : List FrameData) :
    ((FrameRingBuffer.init 0).addAll fs).buffer = [] := by
  simp [addAll_init_buffer]

end FrameRingBuffer

/-- C1: for every capacity C > 0 and every sequence of N > C frames
inserted via `FrameRingBuffer.add`, the buffer afterwards contains
exactly the C most recently inserted frames in oldest-to-newest order
(the final `drop (N - C)` of the insertion sequence, of length C); in
particular a capacity-3 buffer receiving frames numbered 0,1,2,3,4 ends
holding frame numbers [2,3,4] and `get_frame_range` returns
(some 2, some 4). -/
theorem C1_ring_buffer_retains_most_recent (C : Nat) (hC : 0 < C)
    (fs : List FrameData) (hN : C < fs.length) :
    ((FrameRingBuffer.init C).addAll fs).buffer = fs.drop (fs.length - C) ∧
    ((FrameRingBuffer.init C).addAll fs).buffer.length = C ∧
    ((FrameRingBuffer.init 3).addAll demoFrames).get_all_frame_numbers = [2, 3, 4] ∧
    ((FrameRingBuffer.init 3).addAll demoFrames).get_frame_range = (some 2, some 4) := by
  refine ⟨FrameRingBuffer.addAll_init_buffer C fs, ?_, by decide, by decide⟩
  rw [FrameRingBuffer.addAll_init_buffer C fs]
  simp only [List.length_drop]
  omega

/-- Witness for C1 at capacity 3 with the five demo frames. -/
theorem C1_witness :
    0 < 3 ∧ 3 < demoFrames.length ∧
    ((FrameRingBuffer.init 3).addAll demoFrames).buffer =
      demoFrames.drop (demoFrames.length - 3) ∧
    ((FrameRingBuffer.init 3).addAll demoFrames).buffer.length = 3 ∧
    ((FrameRingBuffer.init 3).addAll demoFrames).get_all_frame_numbers = [2, 3, 4] ∧
    ((FrameRingBuffer.init 3).addAll demoFrames).get_frame_range = (some 2, some 4) :=
  ⟨by decide, by decide,
   C1_ring_buffer_retains_most_recent 3 (by decide) demoFrames (by decide)⟩

/-- C10: the constructor accepts capacity 0, and on such a buffer every
lookup stays total and returns `none` / `(none, none)` while
`get_fill_percentage` hits the unguarded division by zero (modelled as
`none`); for every capacity C > 0, `get_fill_percentage` is defined and
equals `size / C * 100`. -/
theorem C10_capacity_zero_safety (C : Nat) (hC : 0 < C)
    (fs : List FrameData) (idx : Int) (n : Nat)
    (b : FrameRingBuffer) (hb : b.capacity = C) :
    (((FrameRingBuffer.init 0).addAll fs).get idx = none ∧
     ((FrameRingBuffer.init 0).addAll fs).get_latest = none ∧
     ((FrameRingBuffer.init 0).addAll fs).get_by_frame_number n = none ∧
     ((FrameRingBuffer.init 0).addAll fs).get_frame_range = (none, none) ∧
     ((FrameRingBuffer.init 0).addAll fs).get_fill_percentage = none) ∧
    b.get_fill_percentage = some ((b.get_size : ℚ) / (C : ℚ) * 100) := by
  have h0 : ((FrameRingBuffer.init 0).addAll fs).buffer = [] :=
    FrameRingBuffer.addAll_init_zero fs
  have hcap : ((FrameRingBuffer.init 0).addAll fs).capacity = 0 :=
    FrameRingBuffer.addAll_capacity fs _
  constructor
  · refine ⟨?_, ?_, ?_, ?_, ?_⟩
    · simp only [FrameRingBuffer.get, h0, List.length_nil]
      rw [if_neg]
      push_neg
      intro h
      exact_mod_cast h
    · simp [FrameRingBuffer.get_latest, h0]
    · simp [FrameRingBuffer.get_by_frame_number, h0]
    · simp [FrameRingBuffer.get_frame_range, h0]
    · simp [FrameRingBuffer.get_fill_percentage, hcap]
  · have hne : C ≠ 0 := by omega
    simp [FrameRingBuffer.get_fill_percentage, hb, hne]

/-- Witness for C10 at capacity 2 with a one-element buffer: the fill
percentage is 50%. -/
theorem C10_witness :
    0 < 2 ∧ (FrameRingBuffer.mk 2 [⟨0, 0, 0, none⟩]).capacity = 2 ∧
    ((FrameRingBuffer.init 0).addAll demoFrames).get 0 = none ∧
    ((FrameRingBuffer.init 0).addAll demoFrames).get_fill_percentage = none ∧
    (FrameRingBuffer.mk 2 [⟨0, 0, 0, none⟩]).get_fill_percentage = some 50 := by
  have h := C10_capacity_zero_safety 2 (by decide) demoFrames 0 0
    (FrameRingBuffer.mk 2 [⟨0, 0, 0, none⟩]) rfl
  refine ⟨by decide, rfl, h.1.1, h.1.2.2.2.2, ?_⟩
  rw [h.2]
  norm_num [FrameRingBuffer.get_size]

/-! ### Playback controller claims -/

/-- C5 counterexample: at a clamped boundary (`current = total - 1` for
`step_forward`, `current = 0` for `step_backward`) the method neither
changes the frame nor invokes the frame callback — the callback
invocation list is empty, refuting the claim that the callback fires
"including when the value is clamped at a boundary". -/
theorem C5_counterexample :
    (PlaybackController.mk PlaybackState.paused 4 (some 5) false).step_forward =
      (PlaybackController.mk PlaybackState.paused 4 (some 5) false, []) ∧
    (PlaybackController.mk PlaybackState.paused 0 (some 5) false).step_backward =
      (PlaybackController.mk PlaybackState.paused 0 (some 5) false, []) := by
  decide

/-- C5 amended: for every controller state (PLAYING, PAUSED or STOPPED)
and in-range current frame, `step_forward` / `step_backward` move the
current frame by +1 / -1 clamped to `[0, total - 1]` when the total is
known (clamped at 0 below when it is not), never change the playback
state, and fire the frame callback synchronously — regardless of state
— exactly when the current frame actually changed; at a clamped
boundary the call is a no-op and no callback fires. -/
lemma step_forward_none_eq (st : PlaybackState) (cur : Int) (lp : Bool) :
    (PlaybackController.mk st cur none lp).step_forward =
      (PlaybackController.mk st (cur + 1) none lp, [cur + 1]) := rfl

lemma step_forward_lt_eq (st : PlaybackState) (cur t : Int) (lp : Bool)
    (h : cur < t - 1) :
    (PlaybackController.mk st cur (some t) lp).step_forward =
      (PlaybackController.mk st (cur + 1) (some t) lp, [cur + 1]) := by
  simp [PlaybackController.step_forward, PlaybackController.canStepForward, h]

lemma step_forward_ge_eq (st : PlaybackState) (cur t : Int) (lp : Bool)
    (h : ¬ cur < t - 1) :
    (PlaybackController.mk st cur (some t) lp).step_forward =
      (PlaybackController.mk st cur (some t) lp, []) := by
  simp [PlaybackController.step_forward, PlaybackController.canStepForward, h]

lemma step_backward_pos_eq (st : PlaybackState) (cur : Int) (tot : Option Int)
    (lp : Bool) (h : 0 < cur) :
    (PlaybackController.mk st cur tot lp).step_backward =
      (PlaybackController.mk st (cur - 1) tot lp, [cur - 1]) := by
  simp [PlaybackController.step_backward, h]

lemma step_backward_nonpos_eq (st : PlaybackState) (cur : Int) (tot : Option Int)
    (lp : Bool) (h : ¬ 0 < cur) :
    (PlaybackController.mk st cur tot lp).step_backward =
      (PlaybackController.mk st cur tot lp, []) := by
  simp [PlaybackController.step_backward, h]

theorem C5_step_clamped_callback_on_change (c : PlaybackController)
    (hge : 0 ≤ c.current_frame)
    (hin : ∀ t, c.total_frames = some t → c.current_frame ≤ t - 1) :
    ((c.step_forward).1.current_frame =
       (c.total_frames.elim (c.current_frame + 1)
         (fun t => min (c.current_frame + 1) (t - 1)))) ∧
    ((c.step_forward).2 =
       if (c.step_forward).1.current_frame = c.current_frame then []
       else [(c.step_forward).1.current_frame]) ∧
    ((c.step_forward).1.state = c.state) ∧
    ((c.step_backward).1.current_frame = max (c.current_frame - 1) 0) ∧
    ((c.step_backward).2 =
       if (c.step_backward).1.current_frame = c.current_frame then []
       else [(c.step_backward).1.current_frame]) ∧
    ((c.step_backward).1.state = c.state) := by
  obtain ⟨st, cur, tot, lp⟩ := c
  have hback :
      (PlaybackController.mk st cur tot lp).step_backward.1.current_frame =
          max (cur - 1) 0 ∧
        ((PlaybackController.mk st cur tot lp).step_backward.2 =
          if (PlaybackController.mk st cur tot lp).step_backward.1.current_frame = cur
          then [] else [(PlaybackController.mk st cur tot lp).step_backward.1.current_frame]) ∧
        (PlaybackController.mk st cur tot lp).step_backward.1.state = st := by
    by_cases h : 0 < cur
    · rw [step_backward_pos_eq st cur tot lp h]
      dsimp only
      exact ⟨by omega, by rw [if_neg (by omega)], rfl⟩
    · rw [step_backward_nonpos_eq st cur tot lp h]
      dsimp only
      exact ⟨by simp at hge ⊢; omega, by rw [if_pos rfl], rfl⟩
  cases tot with
  | none =>
      rw [step_forward_none_eq]
      dsimp only [Option.elim]
      exact ⟨rfl, by rw [if_neg (by omega)], rfl, hback.1, hback.2.1, hback.2.2⟩
  | some t =>
      have ht : cur ≤ t - 1 := hin t rfl
      by_cases hf : cur < t - 1
      · rw [step_forward_lt_eq st cur t lp hf]
        dsimp only [Option.elim]
        exact ⟨by omega, by rw [if_neg (by omega)], rfl, hback.1, hback.2.1, hback.2.2⟩
      · rw [step_forward_ge_eq st cur t lp hf]
        dsimp only [Option.elim]
        exact ⟨by omega, by rw [if_pos rfl], rfl, hback.1, hback.2.1, hback.2.2⟩

/-- Witness for the amended C5 at a STOPPED controller on frame 1 of 5:
stepping forward moves to 2 and fires the callback with 2; stepping
backward moves to 0 and fires the callback with 0. -/
theorem C5_witness :
    0 ≤ (PlaybackController.mk PlaybackState.stopped 1 (some 5) false).current_frame ∧
    (∀ t, (PlaybackController.mk PlaybackState.stopped 1 (some 5) false).total_frames =
        some t →
      (PlaybackController.mk PlaybackState.stopped 1 (some 5) false).current_frame ≤
        t - 1) ∧
    ((PlaybackController.mk PlaybackState.stopped 1 (some 5) false).step_forward).1.current_frame = 2 ∧
    ((PlaybackController.mk PlaybackState.stopped 1 (some 5) false).step_forward).2 = [2] ∧
    ((PlaybackController.mk PlaybackState.stopped 1 (some 5) false).step_backward).1.current_frame = 0 ∧
    ((PlaybackController.mk PlaybackState.stopped 1 (some 5) false).step_backward).2 = [0] := by
  have hin : ∀ t, (PlaybackController.mk PlaybackState.stopped 1 (some 5) false).total_frames =
      some t →
      (PlaybackController.mk PlaybackState.stopped 1 (some 5) false).current_frame ≤ t - 1 := by
    intro t ht
    injection ht with h
    subst h
    decide
  have h := C5_step_clamped_callback_on_change
    (PlaybackController.mk PlaybackState.stopped 1 (some 5) false) (by decide) hin
  refine ⟨by decide, hin, ?_, ?_, ?_, ?_⟩
  · rw [h.1]
    decide
  · rw [h.2.1]
    decide
  · rw [h.2.2.2.1]
    decide
  · rw [h.2.2.2.2.1]
    decide

/-- C6: the claim says `toggle_play_pause()` returns after dispatching on
the current state, toggling PLAYING to PAUSED and PAUSED/STOPPED to
PLAYING.  In the code, `toggle_play_pause` holds `self._lock` — a
non-reentrant `threading.Lock` — while calling `self.pause()` or
`self.play()`, each of which immediately tries to acquire the same
lock, so every call blocks forever (modelled as `none`) in every
state. -/
theorem C6_toggle_play_pause_deadlocks :
    (PlaybackController.mk PlaybackState.playing 0 none false).toggle_play_pause = none ∧
    (PlaybackController.mk PlaybackState.paused 3 (some 10) true).toggle_play_pause = none ∧
    (PlaybackController.mk PlaybackState.stopped 0 none false).toggle_play_pause = none := by
  decide

/-! ### Recording service claims -/

namespace RecordingService

lemma record_frame_active (s : RecordingService) (f : String)
    (hr : s.is_recording = true) (hf : s.current_recording_folder = some f) :
    (s.record_frame true =
      (⟨s.output_folder, s.current_recording_folder, s.frame_counter + 1, s.is_recording⟩,
       true, [(s.frame_counter, f ++ "/" ++ "frame_" ++ pad6 s.frame_counter ++ ".png")])) ∧
    s.record_frame false = (s, false, []) := by
  have hne : ¬ (s.is_recording = false ∨ s.current_recording_folder = none) := by
    simp [hr, hf]
  constructor
  · simp [record_frame, hne, hf, hr]
  · simp [record_frame, hne]

lemma record_frame_idle (s : RecordingService) (b : Bool)
    (hr : s.is_recording = false) :
    s.record_frame b = (s, false, []) := by
  simp [record_frame, hr]

lemma runRecord_indices (bs : List Bool) :
    ∀ (s : RecordingService) (f : String), s.is_recording = true →
      s.current_recording_folder = some f →
      ((runRecord s bs).2.map Prod.fst =
         List.range' s.frame_counter (bs.count true)) ∧
      (runRecord s bs).1.frame_counter = s.frame_counter + bs.count true ∧
      (runRecord s bs).1.is_recording = true ∧
      (runRecord s bs).1.current_recording_folder = some f := by
  induction bs with
  | nil =>
      intro s f hr hf
      simp [runRecord, hr, hf]
  | cons b bs ih =>
      intro s f hr hf
      cases b with
      | true =>
          have hrec := (record_frame_active s f hr hf).1
          have ihs := ih ⟨s.output_folder, s.current_recording_folder,
            s.frame_counter + 1, s.is_recording⟩ f hr hf
          have hcnt : List.count true (true :: bs) = List.count true bs + 1 := by simp
          simp only [runRecord, hrec, hcnt, List.map_append, List.map_cons,
            List.map_nil, List.cons_append, List.nil_append]
          refine ⟨?_, ?_, ihs.2.2.1, ihs.2.2.2⟩
          · rw [ihs.1]
            simp [List.range'_succ]
          · rw [ihs.2.1]
            simp only []
            omega
      | false =>
          have hrec := (record_frame_active s f hr hf).2
          have ihs := ih s f hr hf
          have hcnt : List.count true (false :: bs) = List.count true bs := by simp
          simp only [runRecord, hrec, hcnt, List.nil_append]
          exact ⟨ihs.1, ihs.2.1, ihs.2.2.1, ihs.2.2.2⟩

end RecordingService

/-- C7: `start_recording` while a session is active returns the existing
session path unchanged, creates no directory, and leaves the whole
service state — in particular the frame counter — untouched; when idle
it creates exactly one fresh session directory, resets the counter to 0
and marks the session active with the returned path. -/
theorem C7_start_recording_idempotent (s : RecordingService)
    (name : Option String) (now : String) :
    (s.is_recording = true →
       s.start_recording name now = (s, s.current_recording_folder.getD "None", [])) ∧
    (s.is_recording = false →
       ((s.start_recording name now).1.frame_counter = 0 ∧
        (s.start_recording name now).1.is_recording = true ∧
        (s.start_recording name now).1.current_recording_folder =
          some (s.start_recording name now).2.1 ∧
        (s.start_recording name now).2.2 = [(s.start_recording name now).2.1])) := by
  constructor
  · intro hr
    simp [RecordingService.start_recording, hr]
  · intro hr
    simp [RecordingService.start_recording, hr]

/-- Witness for C7: an active session keeps its path and counter; a fresh
idle service starts at counter 0 with one directory created. -/
theorem C7_witness :
    (RecordingService.mk "recordings" (some "recordings/a") 5 true).is_recording = true ∧
    (RecordingService.mk "recordings" (some "recordings/a") 5 true).start_recording
        none "t" =
      (RecordingService.mk "recordings" (some "recordings/a") 5 true, "recordings/a", []) ∧
    (RecordingService.init "recordings").is_recording = false ∧
    ((RecordingService.init "recordings").start_recording none "t").1.frame_counter = 0 ∧
    ((RecordingService.init "recordings").start_recording none "t").2.2 =
      [((RecordingService.init "recordings").start_recording none "t").2.1] := by
  have h1 := (C7_start_recording_idempotent
    (RecordingService.mk "recordings" (some "recordings/a") 5 true) none "t").1 rfl
  have h2 := (C7_start_recording_idempotent
    (RecordingService.init "recordings") none "t").2 rfl
  exact ⟨rfl, h1, rfl, h2.1, h2.2.2.2⟩

/-- C8: `record_frame` while no session is active returns failure and
changes no state; during a session a failed write leaves the service
unchanged, a successful write stores the file with the zero-padded
6-digit index equal to the current counter and increments the counter,
and from a fresh session (counter 0) a run whose writes succeed N times
produces exactly the successfully written files indexed 0..N-1. -/
theorem C8_record_frame_sequencing (s : RecordingService) (b : Bool)
    (bs : List Bool) (f : String) :
    (s.is_recording = false → s.record_frame b = (s, false, [])) ∧
    (s.is_recording = true → s.current_recording_folder = some f →
       (s.record_frame false = (s, false, []) ∧
        (s.record_frame true).2.2 =
          [(s.frame_counter, f ++ "/" ++ "frame_" ++ pad6 s.frame_counter ++ ".png")] ∧
        (s.record_frame true).1.frame_counter = s.frame_counter + 1 ∧
        (s.frame_counter = 0 →
          (RecordingService.runRecord s bs).2.map Prod.fst =
            List.range (bs.count true)))) := by
  refine ⟨fun hr => RecordingService.record_frame_idle s b hr, fun hr hf => ?_⟩
  have ha := RecordingService.record_frame_active s f hr hf
  refine ⟨ha.2, by rw [ha.1], by rw [ha.1], fun h0 => ?_⟩
  have := (RecordingService.runRecord_indices bs s f hr hf).1
  rw [this, h0, List.range_eq_range']

/-- Witness for C8: an idle call fails without effect; a fresh session
run with write outcomes [true, false, true, true] produces files
indexed 0, 1, 2. -/
theorem C8_witness :
    (RecordingService.init "recordings").is_recording = false ∧
    (RecordingService.init "recordings").record_frame true =
      (RecordingService.init "recordings", false, []) ∧
    (RecordingService.mk "r" (some "r/s") 0 true).is_recording = true ∧
    (RecordingService.mk "r" (some "r/s") 0 true).current_recording_folder = some "r/s" ∧
    (RecordingService.runRecord (RecordingService.mk "r" (some "r/s") 0 true)
        [true, false, true, true]).2.map Prod.fst = List.range 3 := by
  have h1 := (C8_record_frame_sequencing (RecordingService.init "recordings") true [] "").1 rfl
  have h2 := (C8_record_frame_sequencing (RecordingService.mk "r" (some "r/s") 0 true)
    true [true, false, true, true] "r/s").2 rfl rfl
  refine ⟨rfl, h1, rfl, rfl, ?_⟩
  have h3 := h2.2.2.2 rfl
  rw [h3]
  decide

/-! ### Pipeline claims -/

/-- C9: if opening the source fails, `start()` returns failure with no
state change, no loops launched and no close (nothing was opened); if
open succeeds but starting the source fails, `start()` closes the
source, returns failure, launches no loops and the running flag stays
false; calling `start()` while already running returns success with no
source calls and no new loops. -/
theorem C9_start_failure_paths (s : PipelineState) (openOk startOk : Bool) :
    (s.is_running = false → openOk = false →
       ((s.start openOk startOk).2.1 = false ∧
        (s.start openOk startOk).1 = s ∧
        (s.start openOk startOk).1.is_running = false ∧
        StartEvent.launchLoops ∉ (s.start openOk startOk).2.2 ∧
        StartEvent.closeSource ∉ (s.start openOk startOk).2.2)) ∧
    (s.is_running = false → openOk = true → startOk = false →
       ((s.start openOk startOk).2.1 = false ∧
        (s.start openOk startOk).1 = s ∧
        (s.start openOk startOk).1.is_running = false ∧
        StartEvent.launchLoops ∉ (s.start openOk startOk).2.2 ∧
        StartEvent.closeSource ∈ (s.start openOk startOk).2.2)) ∧
    (s.is_running = true →
       (s.start openOk startOk) = (s, true, [])) := by
  refine ⟨fun hr ho => ?_, fun hr ho hk => ?_, fun hr => ?_⟩
  · simp [PipelineState.start, hr, ho]
  · simp [PipelineState.start, hr, ho, hk]
  · simp [PipelineState.start, hr]

/-- Witness for C9 on a fresh pipeline: a failed open and a failed source
start both leave it stopped; a running pipeline ignores the call. -/
theorem C9_witness :
    (PipelineState.init 4).is_running = false ∧
    ((PipelineState.init 4).start false true).2.1 = false ∧
    ((PipelineState.init 4).start false true).1 = PipelineState.init 4 ∧
    ((PipelineState.init 4).start true false).2.1 = false ∧
    StartEvent.closeSource ∈ ((PipelineState.init 4).start true false).2.2 ∧
    (((PipelineState.init 4).start true true).1.is_running = true →
      ((PipelineState.init 4).start true true).1.start true true =
        (((PipelineState.init 4).start true true).1, true, [])) := by
  have h1 := (C9_start_failure_paths (PipelineState.init 4) false true).1 rfl rfl
  have h2 := (C9_start_failure_paths (PipelineState.init 4) true false).2.1 rfl rfl rfl
  exact ⟨rfl, h1.1, h1.2.1, h2.1, h2.2.2.2.2,
    fun hr => (C9_start_failure_paths _ true true).2.2 hr⟩

namespace PipelineState

lemma start_fst_fields (s : PipelineState) (openOk startOk : Bool) :
    (s.start openOk startOk).1.frames_acquired = s.frames_acquired ∧
    (s.start openOk startOk).1.frames_processed = s.frames_processed ∧
    (s.start openOk startOk).1.processing_queue = s.processing_queue ∧
    (s.start openOk startOk).1.processed_buffer = s.processed_buffer ∧
    (s.start openOk startOk).1.acquired_numbers = s.acquired_numbers := by
  by_cases hr : s.is_running <;> cases openOk <;> cases startOk <;>
    simp [start, hr]

lemma stop_fields (s : PipelineState) :
    s.stop.frames_acquired = s.frames_acquired ∧
    s.stop.frames_processed = s.frames_processed ∧
    s.stop.processing_queue = s.processing_queue ∧
    s.stop.processed_buffer = s.processed_buffer ∧
    s.stop.acquired_numbers = s.acquired_numbers := by
  by_cases hr : s.is_running = false <;> simp [stop, hr]

end PipelineState

lemma FrameRingBuffer.mem_add (b : FrameRingBuffer) (fd x : FrameData)
    (h : x ∈ (b.add fd).buffer) : x ∈ b.buffer ∨ x = fd := by
  have h2 : x ∈ b.buffer ++ [fd] := List.drop_subset _ _ h
  rcases List.mem_append.mp h2 with h3 | h3
  · exact Or.inl h3
  · exact Or.inr (List.mem_singleton.mp h3)

lemma pipelineInv_init (buffer_size : Nat) : PipelineInv (PipelineState.init buffer_size) := by
  refine ⟨rfl, by simp [PipelineState.init], ?_, ?_⟩ <;>
    simp [PipelineState.init, FrameRingBuffer.init]

lemma pipelineInv_step {alg : Nat → Option Nat} {algName : String}
    {s t : PipelineState} (hstep : PipelineStep alg algName s t)
    (hinv : PipelineInv s) : PipelineInv t := by
  obtain ⟨h1, h2, h3, h4⟩ := hinv
  cases hstep with
  | startCall openOk startOk =>
      obtain ⟨f1, f2, f3, f4, f5⟩ := s.start_fst_fields openOk startOk
      exact ⟨by rw [f5, f1, h1], by rw [f2, f3, f1]; exact h2,
        by rw [f3, f1]; exact h3, by rw [f4, f1]; exact h4⟩
  | stopCall =>
      obtain ⟨f1, f2, f3, f4, f5⟩ := s.stop_fields
      exact ⟨by rw [f5, f1, h1], by rw [f2, f3, f1]; exact h2,
        by rw [f3, f1]; exact h3, by rw [f4, f1]; exact h4⟩
  | acquire payload ts srcName h =>
      unfold PipelineState.acquire
      refine ⟨?_, ?_, ?_, ?_⟩
      · simp only [h1, List.range_succ]
      · by_cases hq : s.processing_queue.length < 10 <;>
          simp only [hq, if_pos, if_neg, not_false_iff, List.length_append,
            List.length_singleton] <;> omega
      · intro fd hfd
        by_cases hq : s.processing_queue.length < 10
        · simp only [hq, if_pos] at hfd
          rcases List.mem_append.mp hfd with hm | hm
          · exact Nat.lt_succ_of_lt (h3 fd hm)
          · rw [List.mem_singleton.mp hm]
            exact Nat.lt_succ_self _
        · simp only [hq, if_neg, not_false_iff] at hfd
          exact Nat.lt_succ_of_lt (h3 fd hfd)
      · intro fd hfd
        exact Nat.lt_succ_of_lt (h4 fd hfd)
  | process ts writeOk h =>
      unfold PipelineState.process
      split
      next => exact ⟨h1, h2, h3, h4⟩
      next fd rest hq =>
        have hfd : fd.frame_number < s.frames_acquired :=
          h3 fd (by rw [hq]; exact List.mem_cons_self fd rest)
        have hrest : ∀ x ∈ rest, x.frame_number < s.frames_acquired := by
          intro x hx
          exact h3 x (by rw [hq]; exact List.mem_cons_of_mem fd hx)
        have hlen : rest.length + 1 = s.processing_queue.length := by
          rw [hq]; simp
        split
        next halg =>
            exact ⟨h1, by dsimp only; omega, hrest, h4⟩
        next p halg =>
            refine ⟨h1, by dsimp only; omega, hrest, ?_⟩
            intro x hx
            rcases FrameRingBuffer.mem_add _ _ _ hx with hm | hm
            · exact h4 x hm
            · rw [hm]
              exact hfd

lemma pipelineReachable_inv {alg : Nat → Option Nat} {algName : String}
    {buffer_size : Nat} {s : PipelineState}
    (h : PipelineReachable alg algName buffer_size s) : PipelineInv s := by
  induction h with
  | refl => exact pipelineInv_init buffer_size
  | tail hr hstep ih => exact pipelineInv_step hstep ih

/-- C2: in every reachable state of a pipeline, the processed-frame count
is at most the acquired-frame count, and every frame in the processed
buffer carries a `frame_number` equal to that of some frame previously
acquired by the acquisition loop (that is, one of the numbers in the
acquisition history). -/
theorem C2_processed_matches_acquired (alg : Nat → Option Nat) (algName : String)
    (buffer_size : Nat) (s : PipelineState)
    (h : PipelineReachable alg algName buffer_size s) :
    s.frames_processed ≤ s.frames_acquired ∧
    ∀ fd ∈ s.processed_buffer.buffer, fd.frame_number ∈ s.acquired_numbers := by
  obtain ⟨h1, h2, h3, h4⟩ := pipelineReachable_inv h
  refine ⟨by omega, fun fd hm => ?_⟩
  rw [h1]
  exact List.mem_range.mpr (h4 fd hm)

/-- Witness for C2: a concrete run (start, one acquisition, one
processing step) reaches a state where the invariant is discharged by
the theorem. -/
theorem C2_witness :
    PipelineReachable (fun n => some (n + 1)) "Identity" 4
      (PipelineState.process (fun n => some (n + 1)) "Identity"
        ((((PipelineState.init 4).start true true).1.acquire 5 0 "cam")) 1 false) ∧
    (PipelineState.process (fun n => some (n + 1)) "Identity"
        ((((PipelineState.init 4).start true true).1.acquire 5 0 "cam")) 1 false).frames_processed ≤
      (PipelineState.process (fun n => some (n + 1)) "Identity"
        ((((PipelineState.init 4).start true true).1.acquire 5 0 "cam")) 1 false).frames_acquired ∧
    ∀ fd ∈ (PipelineState.process (fun n => some (n + 1)) "Identity"
        ((((PipelineState.init 4).start true true).1.acquire 5 0 "cam")) 1 false).processed_buffer.buffer,
      fd.frame_number ∈ (PipelineState.process (fun n => some (n + 1)) "Identity"
        ((((PipelineState.init 4).start true true).1.acquire 5 0 "cam")) 1 false).acquired_numbers := by
  have r0 : PipelineReachable (fun n => some (n + 1)) "Identity" 4 (PipelineState.init 4) :=
    Relation.ReflTransGen.refl
  have r1 := Relation.ReflTransGen.tail r0
    (PipelineStep.startCall (PipelineState.init 4) true true)
  have r2 := Relation.ReflTransGen.tail r1
    (PipelineStep.acquire (((PipelineState.init 4).start true true).1) 5 0 "cam" (by decide))
  have r3 := Relation.ReflTransGen.tail r2
    (PipelineStep.process ((((PipelineState.init 4).start true true).1.acquire 5 0 "cam"))
      1 false (by decide))
  have h := C2_processed_matches_acquired (fun n => some (n + 1)) "Identity" 4 _ r3
  exact ⟨r3, h.1, h.2⟩

/-- C3 counterexample: a concrete run with two sessions.  The first
session acquires frames 0 and 1 and is stopped; `start()` does not
reset `frames_acquired`, so the first frame acquired in the second
session is stamped with frame_number 2, not 0 — refuting the claim
that the first frame of every start-to-stop session is numbered 0. -/
theorem C3_counterexample :
    ((((((PipelineState.init 4).start true true).1.acquire 9 0 "cam").acquire 9 1
        "cam").stop.start true true).1.is_running = true) ∧
    ((((((PipelineState.init 4).start true true).1.acquire 9 0 "cam").acquire 9 1
        "cam").stop.start true true).1.frames_acquired = 2) ∧
    (((((((PipelineState.init 4).start true true).1.acquire 9 0 "cam").acquire 9 1
        "cam").stop.start true true).1.acquire 9 2 "cam").acquired_numbers = [0, 1, 2]) ∧
    ¬ (((((((PipelineState.init 4).start true true).1.acquire 9 0 "cam").acquire 9 1
        "cam").stop.start true true).1.acquire 9 2 "cam").acquired_numbers.getLast? =
        some 0) := by
  refine ⟨by decide, by decide, by decide, by decide⟩

/-- C3 amended: across the whole lifetime of one pipeline object the
sequence of frame numbers assigned by the acquisition loop is exactly
0, 1, ..., acquired-1 — strictly increasing, and starting at 0 for the
first session after construction.  `start()` does not reset the
counter, so a later session's first frame continues from the previous
total rather than restarting at 0. -/
theorem C3_frame_numbers_strictly_increasing (alg : Nat → Option Nat)
    (algName : String) (buffer_size : Nat) (s : PipelineState)
    (h : PipelineReachable alg algName buffer_size s) :
    s.acquired_numbers = List.range s.frames_acquired ∧
    s.acquired_numbers.Pairwise (· < ·) ∧
    (0 < s.frames_acquired → s.acquired_numbers.head? = some 0) := by
  have h1 := (pipelineReachable_inv h).1
  refine ⟨h1, by rw [h1]; exact List.pairwise_lt_range _, fun hpos => ?_⟩
  rw [h1]
  obtain ⟨m, hm⟩ : ∃ m, s.frames_acquired = m + 1 :=
    ⟨s.frames_acquired - 1, by omega⟩
  rw [hm, List.range_succ_eq_map]
  rfl

/-- Witness for the amended C3: after two acquisitions the history is
[0, 1], increasing and starting at 0. -/
theorem C3_witness :
    PipelineReachable (fun n => some n) "Identity" 4
      ((((PipelineState.init 4).start true true).1.acquire 9 0 "cam").acquire 9 1 "cam") ∧
    ((((PipelineState.init 4).start true true).1.acquire 9 0 "cam").acquire 9 1
        "cam").acquired_numbers =
      List.range ((((PipelineState.init 4).start true true).1.acquire 9 0 "cam").acquire 9 1
        "cam").frames_acquired ∧
    ((((PipelineState.init 4).start true true).1.acquire 9 0 "cam").acquire 9 1
        "cam").acquired_numbers.head? = some 0 := by
  have r0 : PipelineReachable (fun n => some n) "Identity" 4 (PipelineState.init 4) :=
    Relation.ReflTransGen.refl
  have r1 := Relation.ReflTransGen.tail r0
    (PipelineStep.startCall (PipelineState.init 4) true true)
  have r2 := Relation.ReflTransGen.tail r1
    (PipelineStep.acquire (((PipelineState.init 4).start true true).1) 9 0 "cam" (by decide))
  have r3 := Relation.ReflTransGen.tail r2
    (PipelineStep.acquire ((((PipelineState.init 4).start true true).1).acquire 9 0 "cam")
      9 1 "cam" (by decide))
  have h := C3_frame_numbers_strictly_increasing (fun n => some n) "Identity" 4 _ r3
  exact ⟨r3, h.1, h.2.2 (by decide)⟩

/-- C4: when the transform raises on the dequeued item, the processing
loop catches the fault and the only state change is that the item is
gone from the queue — the processed buffer, the processed count and
everything else are untouched — so the loop proceeds to the next item;
when the transform succeeds on the dequeued item, the processed count
is incremented and the result enters the processed buffer under the
same frame number. -/
theorem C4_transform_fault_isolated (alg : Nat → Option Nat) (algName : String)
    (s : PipelineState) (ts : Nat) (wOk : Bool) (fd : FrameData)
    (rest : List FrameData) (hq : s.processing_queue = fd :: rest) :
    (alg fd.frame = none →
       PipelineState.process alg algName s ts wOk =
         ⟨s.is_running, s.frames_acquired, s.frames_processed, s.source_buffer,
          s.processed_buffer, rest, s.recording, s.acquired_numbers⟩) ∧
    (∀ p, alg fd.frame = some p →
       ((PipelineState.process alg algName s ts wOk).frames_processed =
          s.frames_processed + 1 ∧
        (PipelineState.process alg algName s ts wOk).processed_buffer =
          s.processed_buffer.add ⟨p, ts, fd.frame_number, some algName⟩ ∧
        (PipelineState.process alg algName s ts wOk).processing_queue = rest)) := by
  constructor
  · intro halg
    unfold PipelineState.process
    rw [hq]
    simp only [halg]
  · intro p halg
    unfold PipelineState.process
    rw [hq]
    simp [halg]

/-- Witness for C4: with a transform that faults exactly on frame
payload 7, a queue holding frames #7 then #8 first drops #7 without
counting it, then processes #8, incrementing the count to 1 and
storing the processed frame under frame_number 8. -/
theorem C4_witness :
    (PipelineState.mk true 9 0 (FrameRingBuffer.init 4) (FrameRingBuffer.init 4)
        [⟨7, 0, 7, some "cam"⟩, ⟨8, 0, 8, some "cam"⟩]
        (RecordingService.init "recordings") []).processing_queue =
      ⟨7, 0, 7, some "cam"⟩ :: [⟨8, 0, 8, some "cam"⟩] ∧
    (fun n => if n = 7 then none else some (n + 1)) 7 = none ∧
    (PipelineState.process (fun n => if n = 7 then none else some (n + 1)) "Conv"
        (PipelineState.mk true 9 0 (FrameRingBuffer.init 4) (FrameRingBuffer.init 4)
          [⟨7, 0, 7, some "cam"⟩, ⟨8, 0, 8, some "cam"⟩]
          (RecordingService.init "recordings") []) 1 false).frames_processed = 0 ∧
    (PipelineState.process (fun n => if n = 7 then none else some (n + 1)) "Conv"
        (PipelineState.process (fun n => if n = 7 then none else some (n + 1)) "Conv"
          (PipelineState.mk true 9 0 (FrameRingBuffer.init 4) (FrameRingBuffer.init 4)
            [⟨7, 0, 7, some "cam"⟩, ⟨8, 0, 8, some "cam"⟩]
            (RecordingService.init "recordings") []) 1 false) 2 false).frames_processed = 1 ∧
    (PipelineState.process (fun n => if n = 7 then none else some (n + 1)) "Conv"
        (PipelineState.process (fun n => if n = 7 then none else some (n + 1)) "Conv"
          (PipelineState.mk true 9 0 (FrameRingBuffer.init 4) (FrameRingBuffer.init 4)
            [⟨7, 0, 7, some "cam"⟩, ⟨8, 0, 8, some "cam"⟩]
            (RecordingService.init "recordings") []) 1 false) 2
        false).processed_buffer.get_all_frame_numbers = [8] := by
  have h1 := C4_transform_fault_isolated (fun n => if n = 7 then none else some (n + 1))
    "Conv"
    (PipelineState.mk true 9 0 (FrameRingBuffer.init 4) (FrameRingBuffer.init 4)
      [⟨7, 0, 7, some "cam"⟩, ⟨8, 0, 8, some "cam"⟩]
      (RecordingService.init "recordings") []) 1 false
    ⟨7, 0, 7, some "cam"⟩ [⟨8, 0, 8, some "cam"⟩] rfl
  have hd := h1.1 rfl
  have h2 := C4_transform_fault_isolated (fun n => if n = 7 then none else some (n + 1))
    "Conv"
    (PipelineState.process (fun n => if n = 7 then none else some (n + 1)) "Conv"
      (PipelineState.mk true 9 0 (FrameRingBuffer.init 4) (FrameRingBuffer.init 4)
        [⟨7, 0, 7, some "cam"⟩, ⟨8, 0, 8, some "cam"⟩]
        (RecordingService.init "recordings") []) 1 false) 2 false
    ⟨8, 0, 8, some "cam"⟩ [] (by rw [hd])
  have hp := h2.2 9 (by decide)
  refine ⟨rfl, rfl, by rw [hd], ?_, ?_⟩
  · rw [hp.1, hd]
  · rw [hp.2.1, hd]
    decide

end AcquisitionSystem
